import Mathlib

/-!
Verification of the hayaku-engine rendering core: a shallow embedding of the
resource registry, the rendering server and the rendering device, with
theorems checking the design document claims against the code.

Float-typed scalar fields (positions, ranges, colors, matrix entries) are
modelled as uninterpreted `Int` values: no claim performs floating-point
arithmetic on them, they are only stored, copied and compared.
-/

namespace Hayaku

/-- Modelled from the spec: the generic resource registry `RIDOwner` of
`rid_owner.h` is not among the provided sources (only its call sites are).
Per the spec it maps an opaque integer handle to a value, supports
`insert` (generates a fresh handle, distinct from all live ones), `has`,
`get`, `remove` (returning the removed value, or empty for an invalid
handle) and `size`, and iterates entries in insertion order; handle zero is
the reserved no-resource sentinel. -/
structure RIDOwner (α : Type) where
  nextId : Nat
  entries : List (Nat × α)

/-- A fresh registry; handles start at 1 so that the zero sentinel is never
returned by `insert`. -/
def RIDOwner.init {α : Type} : RIDOwner α := ⟨1, []⟩

/-- Embeds `insert(value) -> handle`: returns the generated handle and the
grown registry; the new entry is appended, keeping insertion-order
iteration. -/
def RIDOwner.insert {α : Type} (r : RIDOwner α) (v : α) : Nat × RIDOwner α :=
  (r.nextId, ⟨r.nextId + 1, r.entries ++ [(r.nextId, v)]⟩)

/-- Embeds `has(handle) -> bool`. -/
def RIDOwner.has {α : Type} (r : RIDOwner α) (h : Nat) : Bool :=
  r.entries.any (fun e => e.fst == h)

/-- Lookup returning `none` for an absent handle. -/
def RIDOwner.find {α : Type} (r : RIDOwner α) (h : Nat) : Option α :=
  (r.entries.find? (fun e => e.fst == h)).map Prod.snd

/-- Embeds `get(handle)`: precondition `has(handle)`; on a miss the C++
registry result is undefined, modelled by the default value. -/
def RIDOwner.get {α : Type} [Inhabited α] (r : RIDOwner α) (h : Nat) : α :=
  (r.find h).getD default

/-- Embeds `remove(handle) -> optional<value>`: the removed value (or
`none`) and the shrunk registry. -/
def RIDOwner.remove {α : Type} (r : RIDOwner α) (h : Nat) : Option α × RIDOwner α :=
  (r.find h, ⟨r.nextId, r.entries.filter (fun e => e.fst ≠ h)⟩)

/-- In-place mutation of one entry (the `owner[id].field = v` call sites). -/
def RIDOwner.modify {α : Type} (r : RIDOwner α) (h : Nat) (f : α → α) : RIDOwner α :=
  ⟨r.nextId, r.entries.map (fun e => if e.fst == h then (e.fst, f e.snd) else e)⟩

/-- Embeds `size()`. -/
def RIDOwner.size {α : Type} (r : RIDOwner α) : Nat := r.entries.length

/-- The live handles, in insertion order. -/
def RIDOwner.keys {α : Type} (r : RIDOwner α) : List Nat := r.entries.map Prod.fst

/-- The live values, in insertion order (the `.map()` iteration). -/
def RIDOwner.values {α : Type} (r : RIDOwner α) : List α := r.entries.map Prod.snd

/-- An abstract registry operation: insert some value, or remove a handle. -/
inductive RegOp (α : Type) where
  | ins (v : α)
  | rem (h : Nat)

/-- Replay a sequence of operations against a registry. -/
def RIDOwner.run {α : Type} (r : RIDOwner α) : List (RegOp α) → RIDOwner α
  | [] => r
  | .ins v :: ops => ((r.insert v).2).run ops
  | .rem h :: ops => ((r.remove h).2).run ops

/-- Spec-side account of liveness, following the spec words only: a handle
is live when it was returned by a prior insert and has not since been
removed.  `next` counts handles handed out so far. -/
def specLiveAux {α : Type} (next : Nat) (live : List Nat) : List (RegOp α) → List Nat
  | [] => live
  | .ins _ :: ops => specLiveAux (next + 1) (live ++ [next]) ops
  | .rem h :: ops => specLiveAux next (live.filter (fun k => k ≠ h)) ops

/-- The handles returned by prior inserts and not since removed, for a run
from a fresh registry. -/
def specLive {α : Type} (ops : List (RegOp α)) : List Nat :=
  specLiveAux 1 [] ops

/-- The handles returned by consecutive `insert` calls. -/
def insertHandles {α : Type} (r : RIDOwner α) : List α → List Nat
  | [] => []
  | v :: vs => (r.insert v).1 :: insertHandles (r.insert v).2 vs

/-! ### Device layer (`rendering_device.cpp`) -/

def FRAMES_IN_FLIGHT : Nat := 2

def MAX_LIGHT_COUNT : Nat := 8

/-- The mip level count computed by `RenderingDevice::textureCreate`:
`floor(log2(max(width, height))) + 1` (`Nat.log2` is exact floor-log2,
matching the double-precision computation of the source on the uint32
range). -/
def textureMipLevels (width height : Nat) : Nat :=
  Nat.log2 (max width height) + 1

/-- Image layouts appearing in the device layer (plus a few other Vulkan
layouts, so that the phrase "any other transition" ranges over
something). -/
inductive ImageLayout where
  | undefined
  | general
  | colorAttachmentOptimal
  | depthStencilAttachmentOptimal
  | transferSrcOptimal
  | transferDstOptimal
  | shaderReadOnlyOptimal
  | presentSrcKHR
deriving DecidableEq

inductive PipelineStage where
  | topOfPipe
  | transfer
  | fragmentShader

inductive AccessFlag where
  | none
  | transferWrite
  | transferRead
  | shaderRead

structure BarrierInfo where
  srcAccess : AccessFlag
  dstAccess : AccessFlag
  srcStage : PipelineStage
  dstStage : PipelineStage

/-- Embeds `RenderingDevice::_transitionImageLayout`: only
`Undefined → TransferDstOptimal` and
`TransferDstOptimal → ShaderReadOnlyOptimal` are supported; anything else
throws `std::invalid_argument` (modelled as `Except.error`). -/
def transitionImageLayout (oldLayout newLayout : ImageLayout) :
    Except String BarrierInfo :=
  if oldLayout = .undefined ∧ newLayout = .transferDstOptimal then
    .ok ⟨.none, .transferWrite, .topOfPipe, .transfer⟩
  else if oldLayout = .transferDstOptimal ∧ newLayout = .shaderReadOnlyOptimal then
    .ok ⟨.transferWrite, .shaderRead, .transfer, .fragmentShader⟩
  else
    .error ("Unsupported layout transition!")

/-- The destination extents of the blits recorded by the
`_generateMipmaps` loop for levels `1..mipLevels-1`: per-axis halving of the
working extent, clamped to a minimum of 1 (extents are positive int32
values; `Int` division on positives matches C++ truncation). -/
def mipChain (w h : Int) : Nat → List (Int × Int)
  | 0 => []
  | n + 1 =>
    let w2 : Int := if w > 1 then w / 2 else 1
    let h2 : Int := if h > 1 then h / 2 else 1
    (w2, h2) :: mipChain (if w > 1 then w / 2 else w) (if h > 1 then h / 2 else h) n

/-- Embeds `RenderingDevice::_generateMipmaps`: asserts that the format
supports linear-filtered blits, then records the blit chain. -/
def generateMipmaps (blitSupported : Bool) (w h : Int) (mipLevels : Nat) :
    Except String (List (Int × Int)) :=
  if blitSupported then .ok (mipChain w h (mipLevels - 1))
  else .error ("assertion failed: isBlittingSupported")

/-- The per-frame-slot protocol state of `RenderingDevice` relevant to the
`drawBegin`/`drawEnd` contract. -/
structure DeviceFrameState where
  frame : Nat
  imageIndex : Option Nat
  resized : Bool

/-- Embeds the protocol part of `RenderingDevice::drawBegin`: it stores the
acquired swapchain image index unconditionally before any result check. -/
def RenderingDevice.drawBegin (d : DeviceFrameState) (acquired : Nat) : DeviceFrameState :=
  { d with imageIndex := some acquired }

/-- Embeds the protocol part of `RenderingDevice::drawEnd`: it throws
`std::runtime_error` when no image index was acquired; otherwise it
submits, presents, clears the acquired-image marker and advances the frame
slot modulo 2. -/
def RenderingDevice.drawEnd (d : DeviceFrameState) : Except String DeviceFrameState :=
  match d.imageIndex with
  | none => .error ("Called drawEnd(), without calling drawBegin() first!")
  | some _ => .ok { d with imageIndex := none, frame := (d.frame + 1) % FRAMES_IN_FLIGHT }

/-- Whether a device-layer call completed without raising a fatal error. -/
def isOk {ε β : Type} : Except ε β → Bool
  | .ok _ => true
  | .error _ => false

/-! ### Rendering server data model (`rendering_server.h` / `image.cpp`) -/

/-- A glm::vec3 with uninterpreted scalar entries. -/
abbrev Vec3 := Int × Int × Int

/-- A glm::mat4 in column-major storage with uninterpreted scalar
entries. -/
structure Mat4 where
  m : List Int

instance : Inhabited Mat4 := ⟨⟨List.replicate 16 0⟩⟩

/-- The expression `transform[3]` as a vec3: the translation column
(elements 12..14 of the column-major storage). -/
def Mat4.col3 (t : Mat4) : Vec3 := (t.m.getD 12 0, t.m.getD 13 0, t.m.getD 14 0)

/-- Embeds `Image::Format` from `image.h` (cases as used in `image.cpp`). -/
inductive ImageFormat where
  | R8
  | RG8
  | RGB8
  | RGBA8
  | L8
  | LA8
deriving DecidableEq

/-- The `Image` value type: width, height, format, raw byte data. -/
structure Image where
  width : Nat
  height : Nat
  format : ImageFormat
  data : List Nat

instance : Inhabited Image := ⟨⟨0, 0, .R8, []⟩⟩

/-- The image built by `RenderingServer::windowInit` for the fallback
texture: `Image::create(1, 1, RGBA8, 255 255 255 255)`, solid white. -/
def whiteImage : Image := ⟨1, 1, .RGBA8, [255, 255, 255, 255]⟩

/-- The device-side texture triple (image + view + sampler) returned by
`RenderingDevice::textureCreate`, identified by its source image. -/
structure TextureRD where
  src : Image

instance : Inhabited TextureRD := ⟨⟨default⟩⟩

/-- Embeds `RenderingServer::Material`: the descriptor set written at
binding 0 with the view and sampler of the albedo texture, modelled by the
texture it references. -/
structure MaterialRD where
  albedoSet : TextureRD

instance : Inhabited MaterialRD := ⟨⟨default⟩⟩

/-- Embeds `LightData` (`PointLightRD`): position, range, color, intensity,
with uninterpreted scalars; `PointLightRD lightData` with empty braces
zero-initializes. -/
structure PointLightRD where
  position : Vec3 := (0, 0, 0)
  range : Int := 0
  color : Vec3 := (0, 0, 0)
  intensity : Int := 0

instance : Inhabited PointLightRD := ⟨{}⟩

/-- Embeds `RenderingServer::Primitive`: buffers identified by opaque
ids. -/
structure PrimitiveRD where
  vertexBuffer : Nat
  indexBuffer : Nat
  indexCount : Nat
  material : Nat

/-- Embeds `RenderingServer::Mesh`. -/
structure MeshRD where
  primitives : List PrimitiveRD := []

instance : Inhabited MeshRD := ⟨{}⟩

/-- Embeds `RenderingServer::MeshInstance`. -/
structure MeshInstanceRD where
  mesh : Nat := 0
  transform : Mat4 := default

instance : Inhabited MeshInstanceRD := ⟨{}⟩

/-- Embeds `Camera` (`types/camera.h`): transform plus projection
parameters. -/
structure CameraRD where
  transform : Mat4 := default
  fovY : Int := 0
  zNear : Int := 0
  zFar : Int := 0

/-- A diagnostic line printed to std::cout by the rendering server. -/
inductive LogMsg where
  /-- The line `ERROR: <kind>: <id> is not valid resource!` printed by
  `CHECK_IF_VALID`. -/
  | invalidResource (kind : String) (id : Nat)
  /-- The line `Image format RGBA8 is required to create texture!`. -/
  | rgba8Required

/-- A call recorded against the device layer. -/
inductive DeviceCall where
  | updateLightBuffer (lights : List PointLightRD)
  | updateUniformBuffer (viewPosition : Vec3) (lightCount : Nat)
  | deviceTextureCreate (img : Image)
  | imageDestroy (t : TextureRD)
  | imageViewDestroy (t : TextureRD)
  | samplerDestroy (t : TextureRD)
  | bufferDestroy (b : Nat)
  | allocateDescriptorSet
  | writeDescriptorSet (t : TextureRD)
  | drawBeginCall
  | pushConstants (projView : Mat4) (model : Mat4)
  | bindMaterial (m : MaterialRD)
  | drawIndexed (indexCount : Nat)
  | drawEndCall

/-- The registries and scalar state owned by `RenderingServer`. -/
structure ServerState where
  meshes : RIDOwner MeshRD
  meshInstances : RIDOwner MeshInstanceRD
  pointLights : RIDOwner PointLightRD
  textures : RIDOwner TextureRD
  materials : RIDOwner MaterialRD
  camera : CameraRD
  whiteTexture : Nat
  width : Nat
  height : Nat

/-- The server before any resource was created. -/
def ServerState.initial : ServerState :=
  ⟨RIDOwner.init, RIDOwner.init, RIDOwner.init, RIDOwner.init, RIDOwner.init, {}, 0, 0, 0⟩

/-- The outcome of one rendering-server call: the new state, the diagnostics
printed, and the device-layer calls issued, in order. -/
structure RSOut where
  state : ServerState
  logs : List LogMsg := []
  calls : List DeviceCall := []

/-- The zero sentinel handle `NULL_HANDLE`. -/
def NULL_HANDLE : Nat := 0

/-! ### Rendering server operations (`rendering_server.cpp`) -/

/-- The byte payload of `RenderingServer::_updateLights`, as a light list:
one zero-initialized light when no lights are live, otherwise the live
lights in insertion order, the copy loop stopping at 8. -/
def RS.updateLightsPayload (s : ServerState) : List PointLightRD :=
  if s.pointLights.size = 0 then [{}]
  else s.pointLights.values.take 8

/-- Embeds `RenderingServer::_updateLights`: one `updateLightBuffer`
upload. -/
def RS.updateLights (s : ServerState) : List DeviceCall :=
  [.updateLightBuffer (RS.updateLightsPayload s)]

/-- Embeds `RenderingServer::pointLightCreate`. -/
def RS.pointLightCreate (s : ServerState) : Nat × RSOut :=
  let r := s.pointLights.insert {}
  let s' := { s with pointLights := r.2 }
  (r.1, ⟨s', [], RS.updateLights s'⟩)

/-- Embeds `RenderingServer::pointLightSetPosition`. -/
def RS.pointLightSetPosition (s : ServerState) (pointLight : Nat) (position : Vec3) : RSOut :=
  if !s.pointLights.has pointLight then
    ⟨s, [.invalidResource ("PointLight") pointLight], []⟩
  else
    let s' := { s with
      pointLights := s.pointLights.modify pointLight (fun d => { d with position := position }) }
    ⟨s', [], RS.updateLights s'⟩

/-- Embeds `RenderingServer::pointLightSetRange`. -/
def RS.pointLightSetRange (s : ServerState) (pointLight : Nat) (range : Int) : RSOut :=
  if !s.pointLights.has pointLight then
    ⟨s, [.invalidResource ("PointLight") pointLight], []⟩
  else
    let s' := { s with
      pointLights := s.pointLights.modify pointLight (fun d => { d with range := range }) }
    ⟨s', [], RS.updateLights s'⟩

/-- Embeds `RenderingServer::pointLightSetColor`. -/
def RS.pointLightSetColor (s : ServerState) (pointLight : Nat) (color : Vec3) : RSOut :=
  if !s.pointLights.has pointLight then
    ⟨s, [.invalidResource ("PointLight") pointLight], []⟩
  else
    let s' := { s with
      pointLights := s.pointLights.modify pointLight (fun d => { d with color := color }) }
    ⟨s', [], RS.updateLights s'⟩

/-- Embeds `RenderingServer::pointLightSetIntensity`. -/
def RS.pointLightSetIntensity (s : ServerState) (pointLight : Nat) (intensity : Int) : RSOut :=
  if !s.pointLights.has pointLight then
    ⟨s, [.invalidResource ("PointLight") pointLight], []⟩
  else
    let s' := { s with
      pointLights := s.pointLights.modify pointLight (fun d => { d with intensity := intensity }) }
    ⟨s', [], RS.updateLights s'⟩

/-- Embeds `RenderingServer::pointLightFree`: silent early return when
`remove` yields no value; otherwise re-upload the light list. -/
def RS.pointLightFree (s : ServerState) (pointLight : Nat) : RSOut :=
  let r := s.pointLights.remove pointLight
  let s' := { s with pointLights := r.2 }
  match r.1 with
  | none => ⟨s', [], []⟩
  | some _ => ⟨s', [], RS.updateLights s'⟩

/-- Embeds `RenderingServer::meshCreate`. -/
def RS.meshCreate (s : ServerState) : Nat × RSOut :=
  let r := s.meshes.insert {}
  (r.1, ⟨{ s with meshes := r.2 }, [], []⟩)

/-- Embeds `RenderingServer::meshFree`: destroys the vertex and index
buffers of each primitive; silent early return for an invalid handle. -/
def RS.meshFree (s : ServerState) (mesh : Nat) : RSOut :=
  let r := s.meshes.remove mesh
  let s' := { s with meshes := r.2 }
  match r.1 with
  | none => ⟨s', [], []⟩
  | some m =>
    ⟨s', [],
      (m.primitives.map (fun p => [DeviceCall.bufferDestroy p.vertexBuffer,
        DeviceCall.bufferDestroy p.indexBuffer])).flatten⟩

/-- Embeds `RenderingServer::meshInstanceCreate`. -/
def RS.meshInstanceCreate (s : ServerState) : Nat × RSOut :=
  let r := s.meshInstances.insert {}
  (r.1, ⟨{ s with meshInstances := r.2 }, [], []⟩)

/-- Embeds `RenderingServer::meshInstanceSetMesh`: both handles are
validated by `CHECK_IF_VALID` before the mutation. -/
def RS.meshInstanceSetMesh (s : ServerState) (meshInstance mesh : Nat) : RSOut :=
  if !s.meshInstances.has meshInstance then
    ⟨s, [.invalidResource ("MeshInstance") meshInstance], []⟩
  else if !s.meshes.has mesh then
    ⟨s, [.invalidResource ("Mesh") mesh], []⟩
  else
    ⟨{ s with
        meshInstances := s.meshInstances.modify meshInstance (fun d => { d with mesh := mesh }) },
      [], []⟩

/-- Embeds `RenderingServer::meshInstanceSetTransform`. -/
def RS.meshInstanceSetTransform (s : ServerState) (meshInstance : Nat) (transform : Mat4) :
    RSOut :=
  if !s.meshInstances.has meshInstance then
    ⟨s, [.invalidResource ("MeshInstance") meshInstance], []⟩
  else
    ⟨{ s with
        meshInstances := s.meshInstances.modify meshInstance
          (fun d => { d with transform := transform }) },
      [], []⟩

/-- Embeds `RenderingServer::meshInstanceFree`: bare `remove`, result
discarded. -/
def RS.meshInstanceFree (s : ServerState) (meshInstance : Nat) : RSOut :=
  ⟨{ s with meshInstances := (s.meshInstances.remove meshInstance).2 }, [], []⟩

/-- Embeds `RenderingServer::textureCreate`: null image → null handle
silently; non-RGBA8 format → diagnostic and null handle; otherwise delegate
to the device layer and insert the texture. -/
def RS.textureCreate (s : ServerState) (pImage : Option Image) : Nat × RSOut :=
  match pImage with
  | none => (NULL_HANDLE, ⟨s, [], []⟩)
  | some img =>
    if img.format ≠ .RGBA8 then
      (NULL_HANDLE, ⟨s, [.rgba8Required], []⟩)
    else
      let t : TextureRD := ⟨img⟩
      let r := s.textures.insert t
      (r.1, ⟨{ s with textures := r.2 }, [], [.deviceTextureCreate img]⟩)

/-- Embeds `RenderingServer::textureFree`: destroys image, view and
sampler; silent early return for an invalid handle. -/
def RS.textureFree (s : ServerState) (texture : Nat) : RSOut :=
  let r := s.textures.remove texture
  let s' := { s with textures := r.2 }
  match r.1 with
  | none => ⟨s', [], []⟩
  | some t => ⟨s', [], [.imageDestroy t, .imageViewDestroy t, .samplerDestroy t]⟩

/-- Embeds `RenderingServer::materialCreate`: an invalid albedo handle is
replaced by the fallback white texture; a descriptor set is allocated and
written with the view and sampler of the chosen texture, and the material
inserted. -/
def RS.materialCreate (s : ServerState) (albedoTexture : Nat) : Nat × RSOut :=
  let albedo := if s.textures.has albedoTexture then albedoTexture else s.whiteTexture
  let tex := s.textures.get albedo
  let r := s.materials.insert ⟨tex⟩
  (r.1, ⟨{ s with materials := r.2 }, [], [.allocateDescriptorSet, .writeDescriptorSet tex]⟩)

/-- Embeds `RenderingServer::materialFree`: bare `remove`, result
discarded. -/
def RS.materialFree (s : ServerState) (material : Nat) : RSOut :=
  ⟨{ s with materials := (s.materials.remove material).2 }, [], []⟩

/-- Embeds `RenderingServer::cameraSetTransform`. -/
def RS.cameraSetTransform (s : ServerState) (transform : Mat4) : RSOut :=
  ⟨{ s with camera := { s.camera with transform := transform } }, [], []⟩

/-- The draw commands recorded for one mesh instance: push constants, then
per primitive a material bind, buffer binds and an indexed draw (the
push-constant block carries the projection-view product, whose
floating-point value is not interpreted, and the model transform). -/
def RS.drawInstance (s : ServerState) (inst : MeshInstanceRD) : List DeviceCall :=
  DeviceCall.pushConstants s.camera.transform inst.transform ::
    ((s.meshes.get inst.mesh).primitives.map
      (fun p => [DeviceCall.bindMaterial (s.materials.get p.material),
        DeviceCall.drawIndexed p.indexCount])).flatten

/-- Embeds `RenderingServer::draw`: uploads the frame uniform (translation
column of the camera transform, and the live light count of the registry),
then records every mesh instance in registry order between `drawBegin` and
`drawEnd`. -/
def RS.draw (s : ServerState) : List DeviceCall :=
  DeviceCall.updateUniformBuffer s.camera.transform.col3 s.pointLights.size ::
    DeviceCall.drawBeginCall ::
      (s.meshInstances.values.map (fun inst => RS.drawInstance s inst)).flatten ++
        [DeviceCall.drawEndCall]

/-- Embeds `RenderingServer::windowInit`: stores the extent and creates the
fallback solid-white 1×1 texture. -/
def RS.windowInit (s : ServerState) (width height : Nat) : ServerState :=
  let s1 := { s with width := width, height := height }
  let r := RS.textureCreate s1 (some whiteImage)
  { r.2.state with whiteTexture := r.1 }

/-- The handle-taking `*Set*` and `*Free` operations of the rendering
server, with their arguments. -/
inductive MutOp where
  | meshFree (mesh : Nat)
  | meshInstanceSetMesh (meshInstance mesh : Nat)
  | meshInstanceSetTransform (meshInstance : Nat) (transform : Mat4)
  | meshInstanceFree (meshInstance : Nat)
  | pointLightSetPosition (pointLight : Nat) (position : Vec3)
  | pointLightSetRange (pointLight : Nat) (range : Int)
  | pointLightSetColor (pointLight : Nat) (color : Vec3)
  | pointLightSetIntensity (pointLight : Nat) (intensity : Int)
  | pointLightFree (pointLight : Nat)
  | textureFree (texture : Nat)
  | materialFree (material : Nat)

/-- Dispatch a mutating operation to its implementation. -/
def applyMut (s : ServerState) : MutOp → RSOut
  | .meshFree m => RS.meshFree s m
  | .meshInstanceSetMesh mi m => RS.meshInstanceSetMesh s mi m
  | .meshInstanceSetTransform mi t => RS.meshInstanceSetTransform s mi t
  | .meshInstanceFree mi => RS.meshInstanceFree s mi
  | .pointLightSetPosition l p => RS.pointLightSetPosition s l p
  | .pointLightSetRange l r => RS.pointLightSetRange s l r
  | .pointLightSetColor l c => RS.pointLightSetColor s l c
  | .pointLightSetIntensity l i => RS.pointLightSetIntensity s l i
  | .pointLightFree l => RS.pointLightFree s l
  | .textureFree t => RS.textureFree s t
  | .materialFree m => RS.materialFree s m

/-- Whether every handle the operation targets is present in its
registry. -/
def MutOp.valid (s : ServerState) : MutOp → Bool
  | .meshFree m => s.meshes.has m
  | .meshInstanceSetMesh mi m => s.meshInstances.has mi && s.meshes.has m
  | .meshInstanceSetTransform mi _ => s.meshInstances.has mi
  | .meshInstanceFree mi => s.meshInstances.has mi
  | .pointLightSetPosition l _ => s.pointLights.has l
  | .pointLightSetRange l _ => s.pointLights.has l
  | .pointLightSetColor l _ => s.pointLights.has l
  | .pointLightSetIntensity l _ => s.pointLights.has l
  | .pointLightFree l => s.pointLights.has l
  | .textureFree t => s.textures.has t
  | .materialFree m => s.materials.has m

/-- The `*Set*` operations. -/
def MutOp.isSet : MutOp → Bool
  | .meshInstanceSetMesh _ _ => true
  | .meshInstanceSetTransform _ _ => true
  | .pointLightSetPosition _ _ => true
  | .pointLightSetRange _ _ => true
  | .pointLightSetColor _ _ => true
  | .pointLightSetIntensity _ _ => true
  | _ => false

/-- The `*Free` operations. -/
def MutOp.isFree : MutOp → Bool
  | .meshFree _ => true
  | .meshInstanceFree _ => true
  | .pointLightFree _ => true
  | .textureFree _ => true
  | .materialFree _ => true
  | _ => false

/-- The point-light mutating operations among `MutOp`. -/
def MutOp.isLightMut : MutOp → Bool
  | .pointLightSetPosition _ _ => true
  | .pointLightSetRange _ _ => true
  | .pointLightSetColor _ _ => true
  | .pointLightSetIntensity _ _ => true
  | .pointLightFree _ => true
  | _ => false

/-- Iterates `pointLightCreate` n times. -/
def createLights : Nat → ServerState → ServerState
  | 0, s => s
  | n + 1, s => createLights n (RS.pointLightCreate s).2.state

/-- The number of lights carried by an uploaded light buffer (zero for any
other device call): an observation used to compare device-call traces. -/
def DeviceCall.payloadLength : DeviceCall → Nat
  | .updateLightBuffer lights => lights.length
  | _ => 0

/-! ### Registry lemmas -/

lemma RIDOwner.has_iff_mem_keys {α : Type} (r : RIDOwner α) (h : Nat) :
    r.has h = true ↔ h ∈ r.keys := by
  simp [RIDOwner.has, RIDOwner.keys, List.any_eq_true, List.mem_map]

lemma keys_filter {α : Type} (l : List (Nat × α)) (h : Nat) :
    (l.filter (fun e => e.fst ≠ h)).map Prod.fst =
      (l.map Prod.fst).filter (fun k => k ≠ h) := by
  induction l with
  | nil => rfl
  | cons e l ih =>
    simp only [List.map_cons, List.filter_cons]
    simp only [ne_eq, decide_not] at ih
    by_cases he : e.fst = h
    · simp [he, ih]
    · simp [he, ih]

/-- Replaying operations preserves the correspondence between the registry
and the spec-side account of handed-out and live handles. -/
lemma run_spec_rel {α : Type} (ops : List (RegOp α)) :
    ∀ (r : RIDOwner α) (next : Nat) (live : List Nat),
      r.nextId = next → r.keys = live →
      (r.run ops).keys = specLiveAux next live ops := by
  induction ops with
  | nil => intro r next live _ hk; simpa [RIDOwner.run, specLiveAux] using hk
  | cons op ops ih =>
    intro r next live hn hk
    cases op with
    | ins v =>
      refine ih _ _ _ (by simp [RIDOwner.insert, hn]) ?_
      simp [RIDOwner.insert, RIDOwner.keys] at hk ⊢
      simp [hk, hn]
    | rem h =>
      refine ih _ _ _ (by simp [RIDOwner.remove, hn]) ?_
      simp only [RIDOwner.remove, RIDOwner.keys] at hk ⊢
      rw [keys_filter, hk]

lemma keys_run_eq_specLive {α : Type} (ops : List (RegOp α)) :
    ((RIDOwner.init : RIDOwner α).run ops).keys = specLive ops :=
  run_spec_rel ops _ 1 [] rfl rfl

lemma has_insert_self {α : Type} (r : RIDOwner α) (v : α) :
    (r.insert v).2.has (r.insert v).1 = true := by
  simp [RIDOwner.insert, RIDOwner.has]

lemma has_remove_self {α : Type} (r : RIDOwner α) (h : Nat) :
    (r.remove h).2.has h = false := by
  simp only [RIDOwner.remove, RIDOwner.has]
  induction r.entries with
  | nil => rfl
  | cons e l ih =>
    simp only [List.filter_cons]
    by_cases he : e.fst = h
    · simp only [he]
      simp
    · simp [he]

lemma insertHandles_eq_range' {α : Type} (vs : List α) :
    ∀ (r : RIDOwner α), insertHandles r vs = List.range' r.nextId vs.length := by
  induction vs with
  | nil => intro r; rfl
  | cons v vs ih =>
    intro r
    simp [insertHandles, List.range', RIDOwner.insert, ih]

/-- Every live handle is below the insertion counter; preserved by
replay. -/
lemma keys_lt_nextId_run {α : Type} (ops : List (RegOp α)) :
    ∀ (r : RIDOwner α), (∀ k ∈ r.keys, k < r.nextId) →
      ∀ k ∈ (r.run ops).keys, k < (r.run ops).nextId := by
  induction ops with
  | nil => intro r hr; simpa [RIDOwner.run] using hr
  | cons op ops ih =>
    intro r hr
    cases op with
    | ins v =>
      refine ih _ ?_
      intro k hk
      simp [RIDOwner.insert, RIDOwner.keys] at hk
      rcases hk with hk | hk
      · exact Nat.lt_succ_of_lt (hr k (by simpa [RIDOwner.keys] using hk))
      · simp [RIDOwner.insert, hk]
    | rem h =>
      refine ih _ ?_
      intro k hk
      simp only [RIDOwner.remove, RIDOwner.keys] at hk ⊢
      rw [keys_filter] at hk
      exact hr k (by simpa [RIDOwner.keys] using List.mem_of_mem_filter hk)

lemma has_false_forall {α : Type} (r : RIDOwner α) (h : Nat) (hh : r.has h = false) :
    ∀ e ∈ r.entries, e.fst ≠ h := by
  intro e he heq
  have : r.has h = true := by
    simp only [RIDOwner.has, List.any_eq_true]
    exact ⟨e, he, by simp [heq]⟩
  simp [this] at hh

lemma find_eq_none_of_has_false {α : Type} (r : RIDOwner α) (h : Nat)
    (hh : r.has h = false) : r.find h = none := by
  have hf := has_false_forall r h hh
  have hnone : r.entries.find? (fun e => e.fst == h) = none := by
    rw [List.find?_eq_none]
    intro e he
    simpa using hf e he
  simp [RIDOwner.find, hnone]

lemma remove_eq_of_has_false {α : Type} (r : RIDOwner α) (h : Nat)
    (hh : r.has h = false) : r.remove h = (none, r) := by
  have hf := has_false_forall r h hh
  unfold RIDOwner.remove
  rw [find_eq_none_of_has_false r h hh]
  have : r.entries.filter (fun e => e.fst ≠ h) = r.entries := by
    rw [List.filter_eq_self]
    intro e he
    simpa using hf e he
  rw [this]

lemma find_isSome_of_has {α : Type} (r : RIDOwner α) (h : Nat) (hh : r.has h = true) :
    ∃ v, r.find h = some v := by
  simp only [RIDOwner.has, List.any_eq_true] at hh
  obtain ⟨e, he, heq⟩ := hh
  have : (r.entries.find? (fun e => e.fst == h)).isSome = true := by
    rw [List.find?_isSome]
    exact ⟨e, he, heq⟩
  obtain ⟨p, hp⟩ := Option.isSome_iff_exists.mp this
  exact ⟨p.snd, by simp [RIDOwner.find, hp]⟩

lemma get_insert_self {α : Type} [Inhabited α] (r : RIDOwner α) (v : α)
    (hwf : ∀ k ∈ r.keys, k < r.nextId) :
    (r.insert v).2.get (r.insert v).1 = v := by
  have hnone : r.entries.find? (fun e => e.fst == r.nextId) = none := by
    rw [List.find?_eq_none]
    intro e he
    have : e.fst < r.nextId := hwf e.fst (List.mem_map_of_mem Prod.fst he)
    simp [Nat.ne_of_lt this]
  simp [RIDOwner.insert, RIDOwner.get, RIDOwner.find, List.find?_append, hnone]

/-! ### Claim theorems -/

/-- C1. For the resource registry, for every sequence of insert and remove
operations and every handle `h`, `has(h)` is true iff `h` was returned by a
prior `insert` and has not since been removed; moreover `has(h)` is true
immediately after `insert` returns `h` and false immediately after
`remove(h)`. -/
theorem c1_registry_roundtrip :
    (∀ (α : Type) (ops : List (RegOp α)) (h : Nat),
        ((RIDOwner.init : RIDOwner α).run ops).has h = true ↔ h ∈ specLive ops) ∧
    (∀ (α : Type) (r : RIDOwner α) (v : α),
        (r.insert v).2.has (r.insert v).1 = true) ∧
    (∀ (α : Type) (r : RIDOwner α) (h : Nat),
        (r.remove h).2.has h = false) := by
  refine ⟨?_, ?_, ?_⟩
  · intro α ops h
    rw [RIDOwner.has_iff_mem_keys, keys_run_eq_specLive]
  · intro α r v
    exact has_insert_self r v
  · intro α r h
    exact has_remove_self r h

/-- C2. The `n` handles returned by `n` consecutive inserts on a fresh
registry are pairwise distinct; more generally, on any reachable registry
`insert` returns a handle distinct from all currently-live handles. -/
theorem c2_handle_uniqueness :
    (∀ (α : Type) (vs : List α),
        (insertHandles (RIDOwner.init : RIDOwner α) vs).Nodup) ∧
    (∀ (α : Type) (ops : List (RegOp α)) (v : α),
        ((RIDOwner.init : RIDOwner α).run ops).has
          (((RIDOwner.init : RIDOwner α).run ops).insert v).1 = false) := by
  constructor
  · intro α vs
    rw [insertHandles_eq_range']
    exact List.nodup_range' _ _
  · intro α ops v
    set r := (RIDOwner.init : RIDOwner α).run ops with hr
    have hlt : ∀ k ∈ r.keys, k < r.nextId := by
      refine keys_lt_nextId_run ops _ ?_
      intro k hk
      simp [RIDOwner.init, RIDOwner.keys] at hk
    by_contra hcon
    have : r.has (r.insert v).1 = true := by
      cases hhas : r.has (r.insert v).1
      · exact absurd hhas hcon
      · rfl
    rw [RIDOwner.has_iff_mem_keys] at this
    have := hlt _ this
    simp [RIDOwner.insert] at this

/-- C6. The three precondition violations raise a fatal error, and only
then: a layout transition other than the two supported ones, `drawEnd`
without an acquired image index in the current cycle, and mipmap generation
without linear-blit support. -/
theorem c6_fatal_preconditions :
    (∀ oldLayout newLayout : ImageLayout,
        isOk (transitionImageLayout oldLayout newLayout) = true ↔
          ((oldLayout = .undefined ∧ newLayout = .transferDstOptimal) ∨
           (oldLayout = .transferDstOptimal ∧ newLayout = .shaderReadOnlyOptimal))) ∧
    (∀ d : DeviceFrameState,
        isOk (RenderingDevice.drawEnd d) = true ↔ d.imageIndex.isSome = true) ∧
    (∀ (blitSupported : Bool) (w h : Int) (mipLevels : Nat),
        isOk (generateMipmaps blitSupported w h mipLevels) = true ↔
          blitSupported = true) := by
  refine ⟨?_, ?_, ?_⟩
  · intro o n
    cases o <;> cases n <;> simp [transitionImageLayout, isOk]
  · intro d
    cases h : d.imageIndex <;> simp [RenderingDevice.drawEnd, isOk, h]
  · intro b w h m
    cases b <;> simp [generateMipmaps, isOk]

/-- C5. Texture creation computes the mip level count as
`floor(log2(max(width, height))) + 1` for every positive width and height;
in particular 1024×512 gives 11 levels and 1×1 gives 1 level. -/
theorem c5_mip_count (w h : Nat) (hw : 0 < w) (_hh : 0 < h) :
    (textureMipLevels w h : ℤ) = ⌊Real.logb 2 ((max w h : Nat) : ℝ)⌋ + 1 ∧
    textureMipLevels 1024 512 = 11 ∧ textureMipLevels 1 1 = 1 := by
  refine ⟨?_, ?_, ?_⟩
  · rw [show (2 : ℝ) = ((2 : ℕ) : ℝ) by norm_num,
      Real.floor_logb_natCast (by positivity), Int.log_natCast,
      textureMipLevels, Nat.log2_eq_log_two]
    push_cast
    ring
  · have h1 : Nat.log 2 1024 = 10 := Nat.log_eq_of_pow_le_of_lt_pow (by norm_num) (by norm_num)
    rw [textureMipLevels, show max 1024 512 = 1024 by norm_num, Nat.log2_eq_log_two, h1]
  · rw [textureMipLevels, show max 1 1 = 1 by norm_num, Nat.log2_eq_log_two, Nat.log_one_right]

/-- Witness for C5 at width 1024, height 512. -/
theorem c5_mip_count_witness :
    0 < 1024 ∧ 0 < 512 ∧
      ((textureMipLevels 1024 512 : ℤ) = ⌊Real.logb 2 ((max 1024 512 : Nat) : ℝ)⌋ + 1 ∧
       textureMipLevels 1024 512 = 11 ∧ textureMipLevels 1 1 = 1) :=
  ⟨by decide, by decide, c5_mip_count 1024 512 (by decide) (by decide)⟩

/-- C3 counterexample: the claim requires every invalid-handle `*Set*`/
`*Free` call to log a diagnostic, but `pointLightFree` on a handle absent
from the registry returns silently, printing nothing. -/
theorem c3_counterexample :
    ¬ (∀ (s : ServerState) (op : MutOp), op.valid s = false →
        (applyMut s op).logs ≠ [] ∧ (applyMut s op).state = s ∧
          (applyMut s op).calls = []) := by
  intro hcl
  have := hcl ServerState.initial (.pointLightFree 1) (by decide)
  exact this.1 (by rfl)

/-- C3 (amended). Every `*Set*`/`*Free` call on a handle not present in its
registry returns early without crashing, leaving the server state unchanged
and issuing no device call; the `*Set*` operations print a diagnostic,
while the `*Free` operations return silently. -/
theorem c3_invalid_handle_noop (s : ServerState) (op : MutOp)
    (hv : op.valid s = false) :
    (applyMut s op).state = s ∧ (applyMut s op).calls = [] ∧
      (op.isSet = true → (applyMut s op).logs ≠ []) ∧
      (op.isFree = true → (applyMut s op).logs = []) := by
  cases op with
  | meshFree m =>
    have hr := remove_eq_of_has_false s.meshes m (by simpa [MutOp.valid] using hv)
    simp [applyMut, RS.meshFree, hr, MutOp.isSet, MutOp.isFree]
  | meshInstanceSetMesh mi m =>
    by_cases h1 : s.meshInstances.has mi = true
    · have h2 : s.meshes.has m = false := by
        simp [MutOp.valid, h1] at hv
        exact hv
      simp [applyMut, RS.meshInstanceSetMesh, h1, h2, MutOp.isSet, MutOp.isFree]
    · simp only [Bool.not_eq_true] at h1
      simp [applyMut, RS.meshInstanceSetMesh, h1, MutOp.isSet, MutOp.isFree]
  | meshInstanceSetTransform mi t =>
    have h1 : s.meshInstances.has mi = false := by simpa [MutOp.valid] using hv
    simp [applyMut, RS.meshInstanceSetTransform, h1, MutOp.isSet, MutOp.isFree]
  | meshInstanceFree mi =>
    have hr := remove_eq_of_has_false s.meshInstances mi (by simpa [MutOp.valid] using hv)
    simp [applyMut, RS.meshInstanceFree, hr, MutOp.isSet, MutOp.isFree]
  | pointLightSetPosition l p =>
    have h1 : s.pointLights.has l = false := by simpa [MutOp.valid] using hv
    simp [applyMut, RS.pointLightSetPosition, h1, MutOp.isSet, MutOp.isFree]
  | pointLightSetRange l r =>
    have h1 : s.pointLights.has l = false := by simpa [MutOp.valid] using hv
    simp [applyMut, RS.pointLightSetRange, h1, MutOp.isSet, MutOp.isFree]
  | pointLightSetColor l c =>
    have h1 : s.pointLights.has l = false := by simpa [MutOp.valid] using hv
    simp [applyMut, RS.pointLightSetColor, h1, MutOp.isSet, MutOp.isFree]
  | pointLightSetIntensity l i =>
    have h1 : s.pointLights.has l = false := by simpa [MutOp.valid] using hv
    simp [applyMut, RS.pointLightSetIntensity, h1, MutOp.isSet, MutOp.isFree]
  | pointLightFree l =>
    have hr := remove_eq_of_has_false s.pointLights l (by simpa [MutOp.valid] using hv)
    simp [applyMut, RS.pointLightFree, hr, MutOp.isSet, MutOp.isFree]
  | textureFree t =>
    have hr := remove_eq_of_has_false s.textures t (by simpa [MutOp.valid] using hv)
    simp [applyMut, RS.textureFree, hr, MutOp.isSet, MutOp.isFree]
  | materialFree m =>
    have hr := remove_eq_of_has_false s.materials m (by simpa [MutOp.valid] using hv)
    simp [applyMut, RS.materialFree, hr, MutOp.isSet, MutOp.isFree]

/-- Witness for C3 (amended): `pointLightSetRange` on the fresh server with
the absent handle 3. -/
theorem c3_invalid_handle_noop_witness :
    MutOp.valid ServerState.initial (.pointLightSetRange 3 5) = false ∧
      ((applyMut ServerState.initial (.pointLightSetRange 3 5)).state =
          ServerState.initial ∧
        (applyMut ServerState.initial (.pointLightSetRange 3 5)).calls = [] ∧
        ((MutOp.pointLightSetRange 3 5).isSet = true →
          (applyMut ServerState.initial (.pointLightSetRange 3 5)).logs ≠ []) ∧
        ((MutOp.pointLightSetRange 3 5).isFree = true →
          (applyMut ServerState.initial (.pointLightSetRange 3 5)).logs = [])) :=
  ⟨by decide, c3_invalid_handle_noop ServerState.initial (.pointLightSetRange 3 5) (by decide)⟩

/-- C4 counterexample: the claim requires every valid point-light mutating
call to upload exactly the first min(n, 8) live lights, but freeing the
last light (n = 0 afterwards, min = 0) uploads a single zero-initialized
light rather than an empty buffer. -/
theorem c4_counterexample :
    ¬ (∀ (s : ServerState) (op : MutOp), op.isLightMut = true → op.valid s = true →
        (applyMut s op).calls =
          [.updateLightBuffer ((applyMut s op).state.pointLights.values.take 8)]) := by
  intro hcl
  have hthis := hcl
    (RS.pointLightSetRange (RS.pointLightCreate ServerState.initial).2.state 1 5).state
    (.pointLightFree 1) (by decide) (by decide)
  have hlen := congrArg (List.map DeviceCall.payloadLength) hthis
  exact absurd hlen (by decide)

/-- C4 (amended). Every valid point-light mutating call re-uploads the
entire light buffer exactly once; when n ≥ 1 lights are live after the call
the payload is the first min(n, 8) lights in registry insertion order, and
when n = 0 it is a single zero-initialized light.  `pointLightCreate` also
re-uploads, and after 10 creates on a fresh server the payload is exactly
the first 8 of the 10 live lights in insertion order. -/
theorem c4_light_reupload (s : ServerState) (op : MutOp)
    (h1 : op.isLightMut = true) (h2 : op.valid s = true) :
    ((applyMut s op).calls =
        [.updateLightBuffer (RS.updateLightsPayload (applyMut s op).state)]) ∧
    ((applyMut s op).state.pointLights.size ≠ 0 →
        RS.updateLightsPayload (applyMut s op).state =
          (applyMut s op).state.pointLights.values.take 8) ∧
    ((applyMut s op).state.pointLights.size = 0 →
        RS.updateLightsPayload (applyMut s op).state = [{}]) ∧
    (∀ srv : ServerState, (RS.pointLightCreate srv).2.calls =
        [.updateLightBuffer (RS.updateLightsPayload (RS.pointLightCreate srv).2.state)]) ∧
    ((createLights 10 ServerState.initial).pointLights.size = 10 ∧
      RS.updateLightsPayload (createLights 10 ServerState.initial) =
        (createLights 10 ServerState.initial).pointLights.values.take 8 ∧
      (RS.updateLightsPayload (createLights 10 ServerState.initial)).length = 8) := by
  refine ⟨?_, ?_, ?_, fun srv => rfl, by decide, rfl, by decide⟩
  · cases op with
    | pointLightSetPosition l p =>
      simp only [MutOp.valid] at h2
      simp [applyMut, RS.pointLightSetPosition, h2, RS.updateLights]
    | pointLightSetRange l r =>
      simp only [MutOp.valid] at h2
      simp [applyMut, RS.pointLightSetRange, h2, RS.updateLights]
    | pointLightSetColor l c =>
      simp only [MutOp.valid] at h2
      simp [applyMut, RS.pointLightSetColor, h2, RS.updateLights]
    | pointLightSetIntensity l i =>
      simp only [MutOp.valid] at h2
      simp [applyMut, RS.pointLightSetIntensity, h2, RS.updateLights]
    | pointLightFree l =>
      simp only [MutOp.valid] at h2
      obtain ⟨v, hfind⟩ := find_isSome_of_has s.pointLights l h2
      simp [applyMut, RS.pointLightFree, RIDOwner.remove, hfind, RS.updateLights]
    | meshFree m => simp [MutOp.isLightMut] at h1
    | meshInstanceSetMesh mi m => simp [MutOp.isLightMut] at h1
    | meshInstanceSetTransform mi t => simp [MutOp.isLightMut] at h1
    | meshInstanceFree mi => simp [MutOp.isLightMut] at h1
    | textureFree t => simp [MutOp.isLightMut] at h1
    | materialFree m => simp [MutOp.isLightMut] at h1
  · intro hn
    simp [RS.updateLightsPayload, hn]
  · intro hn
    simp [RS.updateLightsPayload, hn]

/-- Witness for C4 (amended): `pointLightSetRange` on the live handle 1
after one `pointLightCreate`. -/
theorem c4_light_reupload_witness :
    MutOp.isLightMut (.pointLightSetRange 1 5) = true ∧
      MutOp.valid (RS.pointLightCreate ServerState.initial).2.state
        (.pointLightSetRange 1 5) = true ∧
      (applyMut (RS.pointLightCreate ServerState.initial).2.state
          (.pointLightSetRange 1 5)).calls =
        [.updateLightBuffer (RS.updateLightsPayload
          (applyMut (RS.pointLightCreate ServerState.initial).2.state
            (.pointLightSetRange 1 5)).state)] :=
  ⟨by decide, by decide,
    (c4_light_reupload (RS.pointLightCreate ServerState.initial).2.state
      (.pointLightSetRange 1 5) (by decide) (by decide)).1⟩

/-- C7. The `textureCreate` call on an image whose format is not RGBA8
returns the null handle, prints the format diagnostic, issues no
device-layer call and leaves the server state (in particular the texture
registry) unchanged. -/
theorem c7_texture_format_precondition (s : ServerState) (img : Image)
    (hf : img.format ≠ .RGBA8) :
    RS.textureCreate s (some img) = (NULL_HANDLE, ⟨s, [.rgba8Required], []⟩) := by
  simp [RS.textureCreate, hf]

/-- Witness for C7: a 2×2 three-channel (RGB8) image. -/
theorem c7_texture_format_precondition_witness :
    (Image.format ⟨2, 2, .RGB8, List.replicate 12 7⟩ ≠ .RGBA8) ∧
      RS.textureCreate ServerState.initial (some ⟨2, 2, .RGB8, List.replicate 12 7⟩) =
        (NULL_HANDLE, ⟨ServerState.initial, [.rgba8Required], []⟩) :=
  ⟨by decide, c7_texture_format_precondition ServerState.initial _ (by decide)⟩

/-- C8. The `materialCreate` call always succeeds: the returned handle is
live in the material registry and the registry grew by one; when the given
texture handle is invalid, the descriptor set of the material is written
from the pre-created fallback white texture.  A server initialized by
`windowInit` indeed holds the solid-white 1×1 RGBA8 image at its fallback
handle. -/
theorem c8_material_fallback (s : ServerState) (albedoTexture : Nat)
    (hwf : ∀ k ∈ s.materials.keys, k < s.materials.nextId)
    (hwhite : s.textures.has s.whiteTexture = true) :
    ((RS.materialCreate s albedoTexture).2.state.materials.has
        (RS.materialCreate s albedoTexture).1 = true) ∧
    ((RS.materialCreate s albedoTexture).2.state.materials.size =
        s.materials.size + 1) ∧
    (s.textures.has albedoTexture = false →
      ∃ tex, s.textures.find s.whiteTexture = some tex ∧
        (RS.materialCreate s albedoTexture).2.state.materials.get
            (RS.materialCreate s albedoTexture).1 = ⟨tex⟩) ∧
    ((RS.windowInit ServerState.initial 800 600).textures.get
        (RS.windowInit ServerState.initial 800 600).whiteTexture = ⟨whiteImage⟩) := by
  refine ⟨?_, ?_, ?_, rfl⟩
  · exact has_insert_self _ _
  · simp [RS.materialCreate, RIDOwner.insert, RIDOwner.size]
  · intro hinv
    obtain ⟨tex, hfind⟩ := find_isSome_of_has s.textures s.whiteTexture hwhite
    refine ⟨tex, hfind, ?_⟩
    have : s.textures.get (if s.textures.has albedoTexture then albedoTexture
        else s.whiteTexture) = tex := by
      simp [hinv, RIDOwner.get, hfind]
    simpa [RS.materialCreate, this] using get_insert_self s.materials ⟨tex⟩ hwf

/-- Witness for C8: `materialCreate` with the dead handle 999 on a server
initialized by `windowInit`. -/
theorem c8_material_fallback_witness :
    (∀ k ∈ (RS.windowInit ServerState.initial 800 600).materials.keys,
        k < (RS.windowInit ServerState.initial 800 600).materials.nextId) ∧
      (RS.windowInit ServerState.initial 800 600).textures.has
        (RS.windowInit ServerState.initial 800 600).whiteTexture = true ∧
      ((RS.materialCreate (RS.windowInit ServerState.initial 800 600) 999).2.state.materials.has
          (RS.materialCreate (RS.windowInit ServerState.initial 800 600) 999).1 = true) :=
  ⟨by decide, by decide,
    (c8_material_fallback (RS.windowInit ServerState.initial 800 600) 999
      (by decide) (by decide)).1⟩

/-- C9. The `draw()` call writes the total live point-light count of the
registry to the per-frame uniform buffer, unclamped: with 10 live lights
the uniform records 10 even though the light storage buffer holds only the
first 8. -/
theorem c9_uniform_light_count :
    (∀ s : ServerState, (RS.draw s).head? =
        some (.updateUniformBuffer s.camera.transform.col3 s.pointLights.size)) ∧
    ((RS.draw (createLights 10 ServerState.initial)).head? =
        some (.updateUniformBuffer
          (createLights 10 ServerState.initial).camera.transform.col3 10)) ∧
    MAX_LIGHT_COUNT < 10 ∧
    (RS.updateLightsPayload (createLights 10 ServerState.initial)).length =
      MAX_LIGHT_COUNT := by
  refine ⟨fun s => rfl, rfl, by decide, by decide⟩

/-- C10. The `textureCreate` call with a null image pointer returns the
null handle with no diagnostic, no device-layer call, and no state
mutation. -/
theorem c10_null_image (s : ServerState) :
    RS.textureCreate s none = (NULL_HANDLE, ⟨s, [], []⟩) := rfl

end Hayaku
